import Mathlib

/-!
# Verification of the chat-app backend store and coordinator

Shallow embedding of the repository's `DataStore` (src/storage/DataStore.ts and
its transpiled variant src/dist/storage/DataStore.js) and of the Socket.IO
event handlers of the server variants (join, sendMessage, disconnect).

Modelling conventions:
* JavaScript `Map<string, T>` iterated with `Array.from(map.values())` is an
  insertion-ordered association list, embedded as a `List` of records carrying
  their own key; `map.set` on a fresh key appends, on an existing key replaces
  in place; `map.delete` filters the key out.
* Fresh uuid v4 identifiers are modelled by a monotone counter `nextId`
  threaded through the store state (uuid collisions are assumed away).
* `new Date()` timestamps are an `Int` parameter `now` (milliseconds).
* `Array.prototype.slice(-limit)` is `jsSliceNeg`: JavaScript evaluates
  `slice(-0)` as `slice(0)` (the whole array), and clamps a negative start
  index to `0`.
* Durable storage: every mutating store method ends in `saveData()`, which
  writes `messages.slice(-1000)`; the persisted message collection after any
  operation is therefore `persistedMessages` of the resulting state.
* Socket emissions are recorded as an ordered list of `Emit` values;
  per-connection delivery order equals emission order (the transport's
  ordering is assumed by the system, not re-modelled).
-/

namespace ChatApp

/-- The `User` record of src/types (as used by the DataStore). -/
structure User where
  id : Nat
  username : String
  avatar : String
  isOnline : Bool
  lastSeen : Int
  createdAt : Int
  deriving Repr, DecidableEq

/-- The message `type` field: one of `'text' | 'file' | 'image'`. -/
inductive MsgType where
  | text
  | file
  | image
  deriving Repr, DecidableEq

/-- The `Message` record. The `type` field is `Option MsgType` because the
transpiled store copies `messageData.type` verbatim, so a missing incoming
`type` is stored as `undefined` (`none`); the TypeScript store always stores a
concrete type via `messageData.type || 'text'`. The `user` field is the
denormalized snapshot of the sending user. -/
structure Message where
  id : Nat
  content : String
  type : Option MsgType
  userId : Nat
  user : User
  fileUrl : Option String
  fileName : Option String
  fileSize : Option Nat
  fileMimeType : Option String
  createdAt : Int
  deriving Repr, DecidableEq

/-- In-memory state of the `DataStore` (rooms are unused by every claim and by
every handler, so they are not carried). `nextId` models the fresh-uuid
supply. -/
structure StoreState where
  users : List User
  messages : List Message
  nextId : Nat
  deriving Repr, DecidableEq

/-- JavaScript `String.prototype.trim()`: removes leading and trailing
whitespace. (JavaScript also strips some further Unicode space code points;
the difference is irrelevant to every claim, which only exercises ASCII
whitespace.) Defined over the character list so that it evaluates inside the
kernel. -/
def jsTrim (s : String) : String :=
  ⟨((s.data.dropWhile Char.isWhitespace).reverse.dropWhile Char.isWhitespace).reverse⟩

/-- `Array.prototype.slice(-limit)`: for `limit = 0`, `-0 === 0` and the whole
array is returned; otherwise the start index `length - limit` is clamped at
`0`, which Nat subtraction does on its own. -/
def jsSliceNeg {α : Type} (l : List α) (limit : Nat) : List α :=
  if limit = 0 then l else l.drop (l.length - limit)

/-- `saveData` writes `this.messages.slice(-1000)` to the messages file, so
after any mutating operation the durable message collection is this function
of the in-memory state. -/
def persistedMessages (s : StoreState) : List Message :=
  jsSliceNeg s.messages 1000

/-- `findUserByUsername`: first match by exact string equality over the map's
values in insertion order. -/
def findUserByUsername (s : StoreState) (username : String) : Option User :=
  s.users.find? (fun u => u.username = username)

/-- `findUserById` / `this.users.get(id)`. -/
def findUserById (s : StoreState) (id : Nat) : Option User :=
  s.users.find? (fun u => u.id = id)

/-- `createUser`: fresh id, `isOnline = true`, `lastSeen = createdAt = now`;
`map.set` on the fresh key appends in iteration order; persists via
`saveData`. -/
def createUser (s : StoreState) (username avatar : String) (now : Int) :
    User × StoreState :=
  let user : User :=
    { id := s.nextId, username := username, avatar := avatar,
      isOnline := true, lastSeen := now, createdAt := now }
  (user, { s with users := s.users ++ [user], nextId := s.nextId + 1 })

/-- The partial-update argument of `updateUser` (`Partial<User>` restricted to
the fields any caller actually passes: `isOnline`, `avatar`, `lastSeen`). -/
structure UserUpdates where
  avatar : Option String := none
  isOnline : Option Bool := none
  lastSeen : Option Int := none
  deriving Repr, DecidableEq

/-- The spread merge `{ ...user, ...updates }`. -/
def applyUpdates (u : User) (upd : UserUpdates) : User :=
  { u with
    avatar := upd.avatar.getD u.avatar,
    isOnline := upd.isOnline.getD u.isOnline,
    lastSeen := upd.lastSeen.getD u.lastSeen }

/-- `updateUser`: merges the given fields into the existing record; returns
null if the id is unknown; `map.set` on the existing key replaces in place. -/
def updateUser (s : StoreState) (id : Nat) (upd : UserUpdates) :
    Option User × StoreState :=
  match s.users.find? (fun u => u.id = id) with
  | none => (none, s)
  | some user =>
    let updated := applyUpdates user upd
    (some updated,
     { s with users := s.users.map (fun u => if u.id = id then updated else u) })

/-- `getRecentMessages(limit)`: `this.messages.slice(-limit)`. `slice` does
not mutate, so the state component of the result is the input state. -/
def getRecentMessages (s : StoreState) (limit : Nat) :
    List Message × StoreState :=
  (jsSliceNeg s.messages limit, s)

/-- The argument object of `createMessage`. `type` is optional because the
server variants forward `messageData.type` which a client may omit. The
falsy-`userId` guard of the TypeScript source is subsumed by the user lookup
(an absent or empty id never resolves to a user). -/
structure MessageInput where
  content : String
  type : Option MsgType
  userId : Nat
  fileUrl : Option String := none
  fileName : Option String := none
  fileSize : Option Nat := none
  fileMimeType : Option String := none
  deriving Repr, DecidableEq

/-- The truncation step shared by both `createMessage` variants: push, then
`if (this.messages.length > 1000) this.messages = this.messages.slice(-1000)`. -/
def pushCapped (msgs : List Message) (m : Message) : List Message :=
  let pushed := msgs ++ [m]
  if pushed.length > 1000 then jsSliceNeg pushed 1000 else pushed

/-- `createMessage` of the transpiled store src/dist/storage/DataStore.js:
no content validation at all — the only failure is an unresolvable `userId`;
`content` and `type` are copied verbatim (no trim, no `'text'` default). -/
def createMessageDist (s : StoreState) (input : MessageInput) (now : Int) :
    Option Message × StoreState :=
  match s.users.find? (fun u => u.id = input.userId) with
  | none => (none, s)
  | some user =>
    let message : Message :=
      { id := s.nextId, content := input.content, type := input.type,
        userId := input.userId, user := user,
        fileUrl := input.fileUrl, fileName := input.fileName,
        fileSize := input.fileSize, fileMimeType := input.fileMimeType,
        createdAt := now }
    (some message,
     { s with messages := pushCapped s.messages message, nextId := s.nextId + 1 })

/-- `createMessage` of the TypeScript source src/storage/DataStore.ts: rejects
falsy content (`!messageData.content`, i.e. the empty string — a whitespace-only
string is truthy and passes), stores `content.trim()` and
`messageData.type || 'text'`. -/
def createMessageTs (s : StoreState) (input : MessageInput) (now : Int) :
    Option Message × StoreState :=
  if input.content = "" then (none, s)
  else
    match s.users.find? (fun u => u.id = input.userId) with
    | none => (none, s)
    | some user =>
      let message : Message :=
        { id := s.nextId, content := jsTrim input.content,
          type := some (input.type.getD .text),
          userId := input.userId, user := user,
          fileUrl := input.fileUrl, fileName := input.fileName,
          fileSize := input.fileSize, fileMimeType := input.fileMimeType,
          createdAt := now }
      (some message,
       { s with messages := pushCapped s.messages message, nextId := s.nextId + 1 })

/-- `cleanup()`: keeps exactly the messages with `createdAt > oneWeekAgo`;
the commented-out user sweep never runs, so users are untouched. -/
def cleanup (s : StoreState) (now : Int) : StoreState :=
  let oneWeekAgo : Int := now - 7 * 24 * 60 * 60 * 1000
  { s with messages := s.messages.filter (fun m => oneWeekAgo < m.createdAt) }

/-! ## Server layer: session registry, emissions, event handlers -/

/-- A `SocketUser` entry of the `connectedUsers` map: the spread
`{ ...user, socketId: socket.id }`. -/
structure Session where
  socketId : Nat
  user : User
  deriving Repr, DecidableEq

/-- `connectedUsers.set(socket.id, socketUser)`: replace in place if the key
exists, append otherwise (JavaScript `Map` insertion order). -/
def registryPut (l : List Session) (sess : Session) : List Session :=
  if l.any (fun s => s.socketId = sess.socketId) then
    l.map (fun s => if s.socketId = sess.socketId then sess else s)
  else l ++ [sess]

/-- `connectedUsers.get(socket.id)`. -/
def registryGet (l : List Session) (connId : Nat) : Option Session :=
  l.find? (fun s => s.socketId = connId)

/-- `connectedUsers.delete(socket.id)`. -/
def registryRemove (l : List Session) (connId : Nat) : List Session :=
  l.filter (fun s => s.socketId ≠ connId)

/-- Combined server state: the singleton `dataStore` plus the
`connectedUsers` registry. -/
structure ServerState where
  store : StoreState
  connected : List Session
  deriving Repr, DecidableEq

/-- Who an emission is addressed to. `toOne` is `socket.emit`, `roomExcept`
is `socket.to('general').emit` (everyone in the room but the sender),
`room` is `io.to('general').emit`, `everyone` is `io.emit`. Every joined
connection is in the room `'general'`, so for joined connections `room` and
`everyone` deliver alike. -/
inductive Audience where
  | toOne (connId : Nat)
  | roomExcept (connId : Nat)
  | room
  | everyone
  deriving Repr, DecidableEq

/-- Whether a joined connection `c` receives an emission with this
audience. -/
def Audience.receives : Audience → Nat → Bool
  | .toOne c', c => c = c'
  | .roomExcept c', c => c ≠ c'
  | .room, _ => true
  | .everyone, _ => true

/-- The events the handlers emit, with their payloads. -/
inductive Event where
  | recentMessages (msgs : List Message)
  | onlineUsers (online : List Session)
  | joinSuccess (user : Session) (online : List Session) (msgs : List Message)
  | userJoined (user : Session) (online : List Session)
  | newMessage (m : Message)
  | userLeft (user : Session) (online : List Session)
  | errorEvent (message : String)
  deriving Repr, DecidableEq

/-- Event names, for ordering statements that do not care about payloads. -/
inductive EventName where
  | recentMessages
  | onlineUsers
  | joinSuccess
  | userJoined
  | newMessage
  | userLeft
  | errorEvent
  deriving Repr, DecidableEq

def Event.name : Event → EventName
  | .recentMessages _ => .recentMessages
  | .onlineUsers _ => .onlineUsers
  | .joinSuccess _ _ _ => .joinSuccess
  | .userJoined _ _ => .userJoined
  | .newMessage _ => .newMessage
  | .userLeft _ _ => .userLeft
  | .errorEvent _ => .errorEvent

/-- One emission: an audience and an event. Emission order in the returned
list is per-connection delivery order (the transport preserves ordering). -/
structure Emit where
  audience : Audience
  event : Event
  deriving Repr, DecidableEq

/-- The stream of event names a joined connection `c` observes from an
emission list. -/
def eventsTo (ems : List Emit) (c : Nat) : List EventName :=
  (ems.filter (fun e => e.audience.receives c)).map (fun e => e.event.name)

/-- The identity-resolution step of the join handler: look up by username;
create when absent; otherwise `updateUser(user.id, {isOnline: true, avatar,
lastSeen: now})`. The `none` branch of the update is unreachable (the id was
just found); the TypeScript source asserts it away with `!`. -/
def resolveIdentity (s : StoreState) (username avatar : String) (now : Int) :
    User × StoreState :=
  match findUserByUsername s username with
  | none => createUser s username avatar now
  | some u =>
    match updateUser s u.id
        { avatar := some avatar, isOnline := some true, lastSeen := some now } with
    | (some u2, s2) => (u2, s2)
    | (none, s2) => (u, s2)

/-- The `join` handler of the current server (src/unnamed/part_001 and the
first and third TypeScript variants): resolve identity, register the session,
compute snapshots after registration, then emit `recentMessages`,
`onlineUsers`, `joinSuccess` to the joiner and `userJoined` to the rest of
the room. -/
def joinHandler (st : ServerState) (connId : Nat) (username avatar : String)
    (now : Int) : ServerState × List Emit :=
  let resolved := resolveIdentity st.store username avatar now
  let sess : Session := { socketId := connId, user := resolved.1 }
  let connected1 := registryPut st.connected sess
  let recent := (getRecentMessages resolved.2 50).1
  let online := connected1
  ({ store := resolved.2, connected := connected1 },
   [{ audience := .toOne connId, event := .recentMessages recent },
    { audience := .toOne connId, event := .onlineUsers online },
    { audience := .toOne connId, event := .joinSuccess sess online recent },
    { audience := .roomExcept connId, event := .userJoined sess online }])

/-- The `join` handler of the second server variant (src/unnamed/part_000
lines 448–495): same identity resolution and registration, but it emits
`userJoined` via `io.emit` — to every connection, the joiner included —
before sending the joiner its `recentMessages`, and emits no `onlineUsers`
and no `joinSuccess` at all. -/
def joinHandlerVTwo (st : ServerState) (connId : Nat) (username avatar : String)
    (now : Int) : ServerState × List Emit :=
  let resolved := resolveIdentity st.store username avatar now
  let sess : Session := { socketId := connId, user := resolved.1 }
  let connected1 := registryPut st.connected sess
  let online := connected1
  ({ store := resolved.2, connected := connected1 },
   [{ audience := .everyone, event := .userJoined sess online },
    { audience := .toOne connId,
      event := .recentMessages (getRecentMessages resolved.2 50).1 }])

/-- The opaque file descriptor returned by the upload endpoint. -/
structure FileDesc where
  url : String
  originalname : String
  size : Nat
  mimetype : String
  deriving Repr, DecidableEq

/-- The `sendMessage` payload of the current server variant:
`{ content, type, file? }`. -/
structure SendPayload where
  content : String
  type : Option MsgType
  file : Option FileDesc := none
  deriving Repr, DecidableEq

/-- The `sendMessage` handler of the current server (src/unnamed/part_001):
session lookup first — an unregistered connection is silently dropped — then
`dataStore.createMessage` (the transpiled store), broadcasting `newMessage`
to the room only on success. -/
def sendMessageHandler (st : ServerState) (connId : Nat) (payload : SendPayload)
    (now : Int) : ServerState × List Emit :=
  match registryGet st.connected connId with
  | none => (st, [])
  | some sess =>
    let input : MessageInput :=
      { content := payload.content, type := payload.type, userId := sess.user.id,
        fileUrl := payload.file.map (fun f => f.url),
        fileName := payload.file.map (fun f => f.originalname),
        fileSize := payload.file.map (fun f => f.size),
        fileMimeType := payload.file.map (fun f => f.mimetype) }
    match createMessageDist st.store input now with
    | (some m, store1) =>
      ({ store := store1, connected := st.connected },
       [{ audience := .room, event := .newMessage m }])
    | (none, store1) => ({ store := store1, connected := st.connected }, [])

/-- JavaScript string truthiness of an optional field: present and not the
empty string. -/
def jsTruthyStr (o : Option String) : Bool :=
  match o with
  | some s => s ≠ ""
  | none => false

/-- The loose `sendMessage` payload accepted by the first server variant:
either a `text` field or a `content` field may carry the body. -/
structure RawSendPayload where
  text : Option String := none
  content : Option String := none
  type : Option MsgType := none
  file : Option FileDesc := none
  deriving Repr, DecidableEq

/-- Normalized message intent produced by the first variant's normalization
step (`type` already defaulted to `'text'`). -/
structure NormSend where
  content : String
  type : MsgType
  file : Option FileDesc
  deriving Repr, DecidableEq

/-- The normalization step of the first server variant: prefer a truthy
`text` field, else a truthy `content` field, else fail. -/
def normalizeSend (raw : RawSendPayload) : Option NormSend :=
  if jsTruthyStr raw.text then
    some { content := raw.text.getD "", type := raw.type.getD .text, file := raw.file }
  else if jsTruthyStr raw.content then
    some { content := raw.content.getD "", type := raw.type.getD .text, file := raw.file }
  else none

/-- The `sendMessage` handler of the first server variant (src/unnamed/part_000
lines 187–259): normalization and the empty-after-trim check run BEFORE the
session lookup, each emitting an `error` event to the sender on failure; only
then is the session resolved (silently dropping unregistered connections) and
`createMessage` (the TypeScript store) called. -/
def sendMessageHandlerVOne (st : ServerState) (connId : Nat)
    (raw : RawSendPayload) (now : Int) : ServerState × List Emit :=
  match normalizeSend raw with
  | none =>
    (st, [{ audience := .toOne connId,
            event := .errorEvent "Contenido del mensaje es requerido" }])
  | some norm =>
    if norm.content = "" ∨ jsTrim norm.content = "" then
      (st, [{ audience := .toOne connId,
              event := .errorEvent "Contenido del mensaje no puede estar vacío" }])
    else
      match registryGet st.connected connId with
      | none => (st, [])
      | some sess =>
        let input : MessageInput :=
          { content := norm.content, type := some norm.type, userId := sess.user.id,
            fileUrl := norm.file.map (fun f => f.url),
            fileName := norm.file.map (fun f => f.originalname),
            fileSize := norm.file.map (fun f => f.size),
            fileMimeType := norm.file.map (fun f => f.mimetype) }
        match createMessageTs st.store input now with
        | (some m, store1) =>
          ({ store := store1, connected := st.connected },
           [{ audience := .room, event := .newMessage m }])
        | (none, store1) => ({ store := store1, connected := st.connected }, [])

/-- The `disconnect` handler: resolve the session; if present, mark the user
offline with `lastSeen = now`, delete the registry entry, and `io.emit` a
`userLeft` notice with the fresh online snapshot; if absent, do nothing. -/
def disconnectHandler (st : ServerState) (connId : Nat) (now : Int) :
    ServerState × List Emit :=
  match registryGet st.connected connId with
  | none => (st, [])
  | some sess =>
    let upd := updateUser st.store sess.user.id
      { isOnline := some false, lastSeen := some now }
    let connected1 := registryRemove st.connected connId
    ({ store := upd.2, connected := connected1 },
     [{ audience := .everyone, event := .userLeft sess connected1 }])

/-- Iterated `createMessage` (transpiled store) with a fixed input: models a
client sending the same message `n` times. -/
def createNDist (s : StoreState) (inp : MessageInput) (now : Int) : Nat → StoreState
  | 0 => s
  | n + 1 => (createMessageDist (createNDist s inp now n) inp now).2

/-! ## Concrete fixtures used by counterexamples and witnesses -/

def aliceU : User :=
  { id := 1, username := "alice", avatar := "a.png", isOnline := true,
    lastSeen := 0, createdAt := 0 }

def bobU : User :=
  { id := 2, username := "bob", avatar := "b.png", isOnline := true,
    lastSeen := 0, createdAt := 0 }

/-- A store holding just alice. -/
def aliceStore : StoreState := { users := [aliceU], messages := [], nextId := 2 }

def emptyStore : StoreState := { users := [], messages := [], nextId := 1 }

def msgA : Message :=
  { id := 5, content := "hello", type := some .text, userId := 1, user := aliceU,
    fileUrl := none, fileName := none, fileSize := none, fileMimeType := none,
    createdAt := 3 }

/-- A store holding alice and one message. -/
def aliceStoreMsg : StoreState :=
  { users := [aliceU], messages := [msgA], nextId := 6 }

/-- The message alice's `createMessage` call at time 7 produces on
`aliceStore` with content `"hi"`. -/
def msgHi : Message :=
  { id := 2, content := "hi", type := some .text, userId := 1, user := aliceU,
    fileUrl := none, fileName := none, fileSize := none, fileMimeType := none,
    createdAt := 7 }

/-- `aliceStore` after that call. -/
def aliceStoreAfter : StoreState :=
  { users := [aliceU], messages := [msgHi], nextId := 3 }

/-- A server state where bob is connected (socket 20) and nobody else. -/
def bobOnline : ServerState :=
  { store := { users := [bobU], messages := [], nextId := 3 },
    connected := [{ socketId := 20, user := bobU }] }

/-- A server state with no live sessions. -/
def nobodyOnline : ServerState := { store := aliceStore, connected := [] }

/-! ## Helper lemmas -/

theorem jsSliceNeg_length_le {α : Type} (l : List α) :
    (jsSliceNeg l 1000).length ≤ 1000 := by
  simp only [jsSliceNeg]
  rw [if_neg (by omega)]
  simp only [List.length_drop]
  omega

theorem jsSliceNeg_sublist {α : Type} (l : List α) (n : Nat) :
    List.Sublist (jsSliceNeg l n) l := by
  simp only [jsSliceNeg]
  split
  · exact List.Sublist.refl l
  · exact List.drop_sublist _ l

theorem jsSliceNeg_eq_self {α : Type} (l : List α) (h : l.length ≤ 1000) :
    jsSliceNeg l 1000 = l := by
  simp only [jsSliceNeg]
  rw [if_neg (by omega)]
  have : l.length - 1000 = 0 := by omega
  simp [this]

theorem pushCapped_length (l : List Message) (m : Message) :
    (pushCapped l m).length = min (l.length + 1) 1000 := by
  simp only [pushCapped]
  split
  · next h =>
    simp only [List.length_append, List.length_cons, List.length_nil] at h
    simp only [jsSliceNeg]
    rw [if_neg (by omega)]
    simp only [List.length_drop, List.length_append, List.length_cons,
      List.length_nil]
    omega
  · next h =>
    simp only [List.length_append, List.length_cons, List.length_nil] at h ⊢
    omega

theorem pushCapped_full (l : List Message) (m : Message) (h : l.length = 1000) :
    pushCapped l m = l.tail ++ [m] := by
  simp only [pushCapped]
  rw [if_pos (by simp [h])]
  simp only [jsSliceNeg]
  rw [if_neg (by omega)]
  have hlen : (l ++ [m]).length - 1000 = 1 := by simp [h]
  rw [hlen, List.drop_append_of_le_length (by omega), List.drop_one]

theorem pushCapped_mem (l : List Message) (m : Message) : m ∈ pushCapped l m := by
  simp only [pushCapped]
  split
  · next h =>
    simp only [List.length_append, List.length_cons, List.length_nil] at h
    simp only [jsSliceNeg]
    rw [if_neg (by omega)]
    rw [List.drop_append_of_le_length
      (by simp only [List.length_append, List.length_cons, List.length_nil]; omega)]
    simp
  · simp

theorem find?_append_of_none {α : Type} (l₁ l₂ : List α) (p : α → Bool)
    (h : l₁.find? p = none) : (l₁ ++ l₂).find? p = l₂.find? p := by
  simp [List.find?_append, h]

/-! ## Claim C1 -/

/-- Claim C1 as stated is false: `createMessage` does not reject
whitespace-only content for a `text` message. With a resolvable user, the
TypeScript store accepts `"   "` (its only content guard is falsiness, i.e.
the empty string) and stores a Message whose content trims to `""`; the
transpiled store stores `"   "` verbatim. The history grows in both. -/
theorem C1_counterexample :
    ((createMessageTs aliceStore
        { content := "   ", type := some .text, userId := 1 } 7).1.isSome = true) ∧
    ((createMessageTs aliceStore
        { content := "   ", type := some .text, userId := 1 } 7).2.messages.length
      = 1) ∧
    ((createMessageDist aliceStore
        { content := "   ", type := some .text, userId := 1 } 7).1.isSome = true) ∧
    ((createMessageDist aliceStore
        { content := "   ", type := some .text, userId := 1 } 7).2.messages.length
      = 1) := by
  decide

/-- Claim C1 (amended): `createMessage` returns null (never throws) and leaves
the history unchanged exactly when the `userId` does not resolve to a known
User or — in the TypeScript store only — when the content is the empty
string. Whitespace-only content for a `text` message is NOT rejected: it is
stored (trimmed by the TypeScript store, verbatim by the transpiled one); the
empty-after-trim rejection of the spec lives in the normalizing `sendMessage`
handler, not in the store. -/
theorem C1_createMessage_null_cases (s : StoreState) (inp : MessageInput)
    (now : Int) :
    ((createMessageTs s inp now).1 = none ↔
      (inp.content = "" ∨ findUserById s inp.userId = none)) ∧
    ((createMessageTs s inp now).1 = none → (createMessageTs s inp now).2 = s) ∧
    ((createMessageDist s inp now).1 = none ↔ findUserById s inp.userId = none) ∧
    ((createMessageDist s inp now).1 = none →
      (createMessageDist s inp now).2 = s) ∧
    (∀ m, (createMessageTs s inp now).1 = some m →
      m.content = jsTrim inp.content ∧
      (createMessageTs s inp now).2.messages = pushCapped s.messages m) ∧
    (∀ m, (createMessageDist s inp now).1 = some m →
      m.content = inp.content ∧
      (createMessageDist s inp now).2.messages = pushCapped s.messages m) := by
  by_cases hc : inp.content = "" <;>
    cases hf : s.users.find? (fun u => u.id = inp.userId) <;>
    simp [createMessageTs, createMessageDist, findUserById, hc, hf]

/-- Witness for C1: a send whose user id resolves to nobody returns null with
the store intact, and in the whitespace case the stored content is the
trim. -/
theorem C1_witness :
    ((createMessageTs aliceStore
        { content := "hi", type := some .text, userId := 99 } 7).2 = aliceStore) ∧
    ((createMessageDist aliceStore
        { content := "hi", type := some .text, userId := 99 } 7).2 = aliceStore) :=
  ⟨(C1_createMessage_null_cases aliceStore
      { content := "hi", type := some .text, userId := 99 } 7).2.1 (by decide),
   (C1_createMessage_null_cases aliceStore
      { content := "hi", type := some .text, userId := 99 } 7).2.2.2.1 (by decide)⟩

/-! ## Claim C3 -/

/-- Claim C3 as stated is false at `limit = 0`: `slice(-0)` is `slice(0)`, so
`getRecentMessages(0)` returns the whole history, not the empty sequence. -/
theorem C3_counterexample :
    (getRecentMessages aliceStoreMsg 0).1 = [msgA] ∧
    aliceStoreMsg.messages.length = 1 ∧
    (getRecentMessages aliceStoreMsg 0).1 ≠ ([] : List Message) := by
  decide

/-- Claim C3 (amended): for `limit ≥ 1`, `getRecentMessages(limit)` returns
exactly the most recent `min(limit, length)` messages as a suffix of the
history — chronological, oldest-first — and never mutates the state; for
`limit = 0`, JavaScript's `slice(-0) = slice(0)` returns the entire history
instead of the empty sequence. -/
theorem C3_getRecentMessages_spec (s : StoreState) (limit : Nat) :
    ((getRecentMessages s limit).2 = s) ∧
    (limit = 0 → (getRecentMessages s limit).1 = s.messages) ∧
    (1 ≤ limit →
      (getRecentMessages s limit).1.length = min limit s.messages.length ∧
      s.messages.take (s.messages.length - limit) ++ (getRecentMessages s limit).1
        = s.messages) := by
  refine ⟨rfl, ?_, ?_⟩
  · intro h
    simp [getRecentMessages, jsSliceNeg, h]
  · intro h
    constructor
    · simp only [getRecentMessages, jsSliceNeg]
      rw [if_neg (by omega)]
      simp only [List.length_drop]
      omega
    · simp only [getRecentMessages, jsSliceNeg]
      rw [if_neg (by omega)]
      exact List.take_append_drop _ _

/-- Witness for C3: at `limit = 1` on a one-message history the theorem
yields the single most recent message. -/
theorem C3_witness :
    (getRecentMessages aliceStoreMsg 1).1.length
      = min 1 aliceStoreMsg.messages.length :=
  ((C3_getRecentMessages_spec aliceStoreMsg 1).2.2 (by decide)).1

/-! ## Claim C10 -/

/-- Claim C10 as stated is false: the transpiled store and the TypeScript
store disagree on the empty-content input — the TypeScript `createMessage`
returns null while the transpiled one stores a Message — and on whitespace
content the stored `content` fields differ (trimmed vs verbatim). -/
theorem C10_counterexample :
    ((createMessageTs aliceStore
        { content := "", type := some .text, userId := 1 } 7).1 = none) ∧
    ((createMessageDist aliceStore
        { content := "", type := some .text, userId := 1 } 7).1.isSome = true) ∧
    (Option.map (fun m => m.content)
        (createMessageTs aliceStore
          { content := " x ", type := some .text, userId := 1 } 7).1 = some "x") ∧
    (Option.map (fun m => m.content)
        (createMessageDist aliceStore
          { content := " x ", type := some .text, userId := 1 } 7).1
      = some " x ") := by
  decide

/-- Claim C10 (amended): the two `createMessage` implementations are NOT
extensionally equal — the TypeScript source rejects empty content, trims the
stored content and defaults a missing type to `'text'`, while the transpiled
store validates nothing and copies `content`/`type` verbatim. They agree
(same nullability, same Message fields, same resulting state) exactly on the
inputs where those differences vanish: a non-empty content equal to its own
trim, with the type supplied. -/
theorem C10_createMessage_agreement (s : StoreState) (inp : MessageInput)
    (now : Int) (t : MsgType) (hc : inp.content ≠ "")
    (htrim : jsTrim inp.content = inp.content) (ht : inp.type = some t) :
    createMessageTs s inp now = createMessageDist s inp now := by
  cases hf : s.users.find? (fun u => u.id = inp.userId) <;>
    simp [createMessageTs, createMessageDist, hc, hf, htrim, ht]

/-- Witness for C10: on the already-trimmed input `"hi"` with an explicit
type, both stores produce identical results. -/
theorem C10_witness :
    createMessageTs aliceStore
        { content := "hi", type := some .text, userId := 1 } 7
      = createMessageDist aliceStore
        { content := "hi", type := some .text, userId := 1 } 7 :=
  C10_createMessage_agreement aliceStore
    { content := "hi", type := some .text, userId := 1 } 7 .text
    (by decide) (by decide) rfl

/-! ## Claim C4 -/

theorem createMessageDist_users (s : StoreState) (inp : MessageInput)
    (now : Int) : (createMessageDist s inp now).2.users = s.users := by
  cases hf : s.users.find? (fun u => u.id = inp.userId) <;>
    simp [createMessageDist, hf]

theorem createNDist_users (s : StoreState) (inp : MessageInput) (now : Int)
    (n : Nat) : (createNDist s inp now n).users = s.users := by
  induction n with
  | zero => rfl
  | succ n ih => rw [createNDist, createMessageDist_users, ih]

theorem createNDist_length (s : StoreState) (inp : MessageInput) (now : Int)
    (hu : (findUserById s inp.userId).isSome)
    (hcap : s.messages.length ≤ 1000) (n : Nat) :
    (createNDist s inp now n).messages.length
      = min (s.messages.length + n) 1000 := by
  induction n with
  | zero => simp only [createNDist]; omega
  | succ n ih =>
    obtain ⟨u, hf⟩ := Option.isSome_iff_exists.mp hu
    simp only [findUserById] at hf
    have hf' : (createNDist s inp now n).users.find? (fun x => x.id = inp.userId)
        = some u := by
      rw [createNDist_users]; exact hf
    rw [createNDist]
    simp only [createMessageDist, hf', pushCapped_length]
    omega

/-- Claim C4 (confirmed): every store operation keeps at most 1000 messages
in memory (given the invariant held before) and at most 1000 persisted
(unconditionally — `saveData` writes `slice(-1000)`); a successful
`createMessage` on a full history of 1000 drops the oldest entry; and 1001
consecutive creations starting from an empty history leave exactly 1000
messages, identical in memory and in durable storage. -/
theorem C4_history_cap (s : StoreState) (username avatar : String) (now : Int)
    (uid : Nat) (upd : UserUpdates) (limit : Nat) (inp : MessageInput)
    (hcap : s.messages.length ≤ 1000) :
    ((createUser s username avatar now).2.messages.length ≤ 1000) ∧
    ((updateUser s uid upd).2.messages.length ≤ 1000) ∧
    ((cleanup s now).messages.length ≤ 1000) ∧
    ((getRecentMessages s limit).2.messages.length ≤ 1000) ∧
    ((createMessageDist s inp now).2.messages.length ≤ 1000) ∧
    ((createMessageTs s inp now).2.messages.length ≤ 1000) ∧
    ((persistedMessages s).length ≤ 1000) ∧
    ((persistedMessages ((createMessageDist s inp now).2)).length ≤ 1000) ∧
    (s.messages.length = 1000 → ∀ m, (createMessageDist s inp now).1 = some m →
      (createMessageDist s inp now).2.messages = s.messages.tail ++ [m]) ∧
    ((findUserById s inp.userId).isSome → s.messages = [] →
      (createNDist s inp now 1001).messages.length = 1000 ∧
      persistedMessages (createNDist s inp now 1001)
        = (createNDist s inp now 1001).messages) := by
  refine ⟨by simpa [createUser] using hcap, ?_, ?_,
    by simpa [getRecentMessages] using hcap, ?_, ?_,
    jsSliceNeg_length_le _, jsSliceNeg_length_le _, ?_, ?_⟩
  · cases hf : s.users.find? (fun u => u.id = uid) <;>
      simpa [updateUser, hf] using hcap
  · exact le_trans (List.length_filter_le _ _) hcap
  · cases hf : s.users.find? (fun u => u.id = inp.userId) <;>
      simp [createMessageDist, hf, pushCapped_length, hcap]
  · by_cases hc : inp.content = "" <;>
      cases hf : s.users.find? (fun u => u.id = inp.userId) <;>
      simp [createMessageTs, hc, hf, pushCapped_length, hcap]
  · intro h1000 m hm
    cases hf : s.users.find? (fun u => u.id = inp.userId) with
    | none => simp [createMessageDist, hf] at hm
    | some u =>
      simp only [createMessageDist, hf, Option.some.injEq] at hm
      simp only [createMessageDist, hf]
      rw [← hm, pushCapped_full _ _ h1000]
  · intro hu hempty
    have hlen := createNDist_length s inp now hu hcap 1001
    rw [hempty] at hlen
    simp only [List.length_nil] at hlen
    constructor
    · rw [hlen]; omega
    · exact jsSliceNeg_eq_self _ (by rw [hlen]; omega)

/-- Witness for C4: with alice's store (empty history, alice resolvable), the
1001-creation bound is reached and memory equals durable storage. -/
theorem C4_witness :
    (createNDist aliceStore { content := "hi", type := some .text, userId := 1 }
        7 1001).messages.length = 1000 :=
  ((C4_history_cap aliceStore "x" "y" 7 1 {} 5
      { content := "hi", type := some .text, userId := 1 }
      (by decide)).2.2.2.2.2.2.2.2.2 (by decide) rfl).1

/-! ## Claim C5 -/

/-- Claim C5 (confirmed): after `cleanup()` the retained messages are exactly
those with `createdAt` strictly inside the 7-day window — so every message
older than 7 days is gone from memory, and (the persisted collection being a
sub-sequence of memory) from durable storage as well — every strictly newer
message survives, and the users collection and id supply are untouched. -/
theorem C5_cleanup_retention (s : StoreState) (now : Int) :
    ((cleanup s now).users = s.users) ∧
    ((cleanup s now).nextId = s.nextId) ∧
    (∀ m : Message, m ∈ (cleanup s now).messages ↔
      (m ∈ s.messages ∧ now - 7 * 24 * 60 * 60 * 1000 < m.createdAt)) ∧
    List.Sublist (persistedMessages (cleanup s now)) (cleanup s now).messages := by
  refine ⟨rfl, rfl, ?_, jsSliceNeg_sublist _ _⟩
  intro m
  simp [cleanup, List.mem_filter]

/-- Witness for C5: a message created at time 0 is absent after a cleanup at
time `7 days + 1 ms`, while the user collection is intact. -/
theorem C5_witness :
    (msgA ∉ (cleanup aliceStoreMsg (7 * 24 * 60 * 60 * 1000 + 4)).messages) ∧
    (cleanup aliceStoreMsg (7 * 24 * 60 * 60 * 1000 + 4)).users
      = aliceStoreMsg.users := by
  constructor
  · intro hmem
    have h := ((C5_cleanup_retention aliceStoreMsg
        (7 * 24 * 60 * 60 * 1000 + 4)).2.2.1 msgA).mp hmem
    have : msgA.createdAt = 3 := rfl
    omega
  · exact (C5_cleanup_retention aliceStoreMsg (7 * 24 * 60 * 60 * 1000 + 4)).1

/-! ## Claim C7 -/

/-- Claim C7 (confirmed): a join with an unseen username creates exactly one
new User (with the incoming avatar, `isOnline = true`, and both timestamps set
to now); a second join with that username creates no further record and
returns a user with the same id, updated in place to `isOnline = true`, the
new avatar and `lastSeen = now`, with `createdAt` kept from creation. The
well-formedness hypothesis (every stored id is below the id supply) is
maintained by the store itself, ids being handed out in order. -/
theorem C7_join_determinism (s : StoreState) (uname av1 av2 : String)
    (t1 t2 : Int)
    (hwf : ∀ u ∈ s.users, u.id < s.nextId)
    (habs : findUserByUsername s uname = none) :
    ((resolveIdentity s uname av1 t1).2.users.length = s.users.length + 1) ∧
    ((resolveIdentity s uname av1 t1).1
      = { id := s.nextId, username := uname, avatar := av1, isOnline := true,
          lastSeen := t1, createdAt := t1 }) ∧
    ((resolveIdentity (resolveIdentity s uname av1 t1).2 uname av2 t2).2.users.length
      = (resolveIdentity s uname av1 t1).2.users.length) ∧
    ((resolveIdentity (resolveIdentity s uname av1 t1).2 uname av2 t2).1
      = { id := s.nextId, username := uname, avatar := av2, isOnline := true,
          lastSeen := t2, createdAt := t1 }) := by
  have habs' : s.users.find? (fun u => u.username = uname) = none := habs
  have hr1 : resolveIdentity s uname av1 t1
      = ({ id := s.nextId, username := uname, avatar := av1, isOnline := true,
           lastSeen := t1, createdAt := t1 },
         { users := s.users ++
             [{ id := s.nextId, username := uname, avatar := av1,
                isOnline := true, lastSeen := t1, createdAt := t1 }],
           messages := s.messages, nextId := s.nextId + 1 }) := by
    simp [resolveIdentity, habs, createUser]
  have hstep : (resolveIdentity s uname av1 t1).2
      = { users := s.users ++
            [{ id := s.nextId, username := uname, avatar := av1,
               isOnline := true, lastSeen := t1, createdAt := t1 }],
          messages := s.messages, nextId := s.nextId + 1 } := by
    rw [hr1]
  have hfind2 : findUserByUsername
      ({ users := s.users ++
           [{ id := s.nextId, username := uname, avatar := av1,
              isOnline := true, lastSeen := t1, createdAt := t1 }],
         messages := s.messages, nextId := s.nextId + 1 } : StoreState) uname
      = some { id := s.nextId, username := uname, avatar := av1,
               isOnline := true, lastSeen := t1, createdAt := t1 } := by
    show (s.users ++ [_]).find? _ = _
    rw [find?_append_of_none _ _ _ habs']
    simp
  have hfindid : (s.users ++
        [({ id := s.nextId, username := uname, avatar := av1,
            isOnline := true, lastSeen := t1, createdAt := t1 } : User)]).find?
      (fun u => u.id = s.nextId)
      = some { id := s.nextId, username := uname, avatar := av1,
               isOnline := true, lastSeen := t1, createdAt := t1 } := by
    rw [find?_append_of_none]
    · simp
    · rw [List.find?_eq_none]
      intro x hx
      simp only [decide_eq_true_eq]
      exact Nat.ne_of_lt (hwf x hx)
  have hr2 : resolveIdentity
      ({ users := s.users ++
           [{ id := s.nextId, username := uname, avatar := av1,
              isOnline := true, lastSeen := t1, createdAt := t1 }],
         messages := s.messages, nextId := s.nextId + 1 } : StoreState)
      uname av2 t2
      = ({ id := s.nextId, username := uname, avatar := av2, isOnline := true,
           lastSeen := t2, createdAt := t1 },
         { users := (s.users ++
             [({ id := s.nextId, username := uname, avatar := av1,
                 isOnline := true, lastSeen := t1, createdAt := t1 } : User)]).map
             (fun u => if u.id = s.nextId then
                { id := s.nextId, username := uname, avatar := av2,
                  isOnline := true, lastSeen := t2, createdAt := t1 } else u),
           messages := s.messages,
           nextId := s.nextId + 1 }) := by
    simp only [resolveIdentity, hfind2, updateUser, hfindid, applyUpdates,
      Option.getD_some]
  refine ⟨?_, ?_, ?_, ?_⟩
  · rw [hstep]; simp
  · rw [hr1]
  · rw [hstep, hr2]; simp
  · rw [hstep, hr2]

/-- Witness for C7: joining an empty store as alice creates one user; joining
again returns the same id 1 with the fresh avatar and timestamps. -/
theorem C7_witness :
    ((resolveIdentity emptyStore "alice" "a.png" 3).2.users.length
      = emptyStore.users.length + 1) ∧
    ((resolveIdentity (resolveIdentity emptyStore "alice" "a.png" 3).2
        "alice" "b.png" 9).1
      = { id := 1, username := "alice", avatar := "b.png", isOnline := true,
          lastSeen := 9, createdAt := 3 }) :=
  ⟨(C7_join_determinism emptyStore "alice" "a.png" "b.png" 3 9
      (by simp [emptyStore]) (by decide)).1,
   (C7_join_determinism emptyStore "alice" "a.png" "b.png" 3 9
      (by simp [emptyStore]) (by decide)).2.2.2⟩

/-! ## Claim C8 -/

theorem registryGet_remove (l : List Session) (c : Nat) :
    registryGet (registryRemove l c) c = none := by
  simp only [registryGet, registryRemove, List.find?_eq_none]
  intro x hx
  have := (List.mem_filter.mp hx).2
  simpa using this

/-- Claim C8 (confirmed): a first disconnect on a registered connection emits
exactly one `userLeft` (to everyone, with the post-removal online snapshot),
applies exactly one offline update (`isOnline = false`, `lastSeen = now`) to
the underlying user, and removes the session; a second disconnect on the same
connection id is a complete no-op — same state, no emissions, no error. -/
theorem C8_disconnect_idempotent (st : ServerState) (c : Nat) (t1 t2 : Int)
    (sess : Session) (h : registryGet st.connected c = some sess) :
    ((disconnectHandler st c t1).2
      = [{ audience := .everyone,
           event := .userLeft sess (registryRemove st.connected c) }]) ∧
    ((disconnectHandler st c t1).1.store
      = (updateUser st.store sess.user.id
          { isOnline := some false, lastSeen := some t1 }).2) ∧
    ((disconnectHandler st c t1).1.connected = registryRemove st.connected c) ∧
    (disconnectHandler (disconnectHandler st c t1).1 c t2
      = ((disconnectHandler st c t1).1, [])) ∧
    (((disconnectHandler st c t1).2
        ++ (disconnectHandler (disconnectHandler st c t1).1 c t2).2).countP
      (fun e => e.event.name == .userLeft) = 1) := by
  have h1 : disconnectHandler st c t1
      = ({ store := (updateUser st.store sess.user.id
             { isOnline := some false, lastSeen := some t1 }).2,
           connected := registryRemove st.connected c },
         [{ audience := .everyone,
            event := .userLeft sess (registryRemove st.connected c) }]) := by
    simp [disconnectHandler, h]
  have h2 : disconnectHandler (disconnectHandler st c t1).1 c t2
      = ((disconnectHandler st c t1).1, []) := by
    rw [h1]
    simp [disconnectHandler, registryGet_remove]
  refine ⟨by rw [h1], by rw [h1], by rw [h1], h2, ?_⟩
  rw [h2, h1]
  simp [List.countP, List.countP.go, Event.name]

/-- Witness for C8: disconnecting bob's socket 20 twice yields one `userLeft`
and a silent second call. -/
theorem C8_witness :
    disconnectHandler (disconnectHandler bobOnline 20 11).1 20 12
      = ((disconnectHandler bobOnline 20 11).1, []) :=
  (C8_disconnect_idempotent bobOnline 20 11 12
    { socketId := 20, user := bobU } (by decide)).2.2.2.1

/-! ## Claim C9 -/

/-- Claim C9 (confirmed): a Message created by `createMessage` embeds the
sending User's record exactly as it stood at creation time, the message is in
the resulting history, and `updateUser` never touches the messages
collection — so a later profile update (avatar change on re-join, offline
flip on disconnect) leaves the snapshot inside every already-created Message
unchanged. -/
theorem C9_snapshot_immutable (s : StoreState) (inp : MessageInput) (now : Int)
    (m : Message) (s2 : StoreState)
    (h : createMessageDist s inp now = (some m, s2)) :
    (findUserById s inp.userId = some m.user) ∧
    (m ∈ s2.messages) ∧
    (∀ uid upd, ((updateUser s2 uid upd).2).messages = s2.messages) ∧
    (∀ uid upd, m ∈ ((updateUser s2 uid upd).2).messages) := by
  cases hf : s.users.find? (fun u => u.id = inp.userId) with
  | none => simp [createMessageDist, hf] at h
  | some u =>
    simp only [createMessageDist, hf, Prod.mk.injEq, Option.some.injEq] at h
    obtain ⟨hm, hs2⟩ := h
    have hmem : m ∈ s2.messages := by
      rw [← hs2, ← hm]
      exact pushCapped_mem _ _
    have hframe : ∀ uid upd, ((updateUser s2 uid upd).2).messages
        = s2.messages := by
      intro uid upd
      cases hg : s2.users.find? (fun u => u.id = uid) <;> simp [updateUser, hg]
    refine ⟨?_, hmem, hframe, fun uid upd => by rw [hframe]; exact hmem⟩
    show s.users.find? (fun u => u.id = inp.userId) = some m.user
    rw [hf, ← hm]

/-- Witness for C9: the message alice sends at time 7 carries her record as
of time 7, and an avatar update afterwards leaves the stored history (and
hence the embedded snapshot) untouched. -/
theorem C9_witness :
    findUserById aliceStore
        (({ content := "hi", type := some .text, userId := 1 } : MessageInput).userId)
      = some msgHi.user ∧
    msgHi ∈ aliceStoreAfter.messages :=
  ⟨(C9_snapshot_immutable aliceStore
      { content := "hi", type := some .text, userId := 1 } 7 msgHi
      aliceStoreAfter (by decide)).1,
   (C9_snapshot_immutable aliceStore
      { content := "hi", type := some .text, userId := 1 } 7 msgHi
      aliceStoreAfter (by decide)).2.1⟩

/-! ## Claim C2 -/

/-- Claim C2 as stated is false for the second server variant: when alice
(socket 10) joins the room already containing bob (socket 20), that variant's
handler delivers `userJoined` — announcing alice's own arrival — to alice
FIRST, before her `recentMessages`; alice never receives `joinSuccess` or
`onlineUsers` at all, and bob's `userJoined` is emitted before anything is
sent to alice. -/
theorem C2_counterexample :
    (eventsTo ((joinHandlerVTwo bobOnline 10 "alice" "a.png" 5).2) 10
      = [.userJoined, .recentMessages]) ∧
    (EventName.joinSuccess ∉
      eventsTo ((joinHandlerVTwo bobOnline 10 "alice" "a.png" 5).2) 10) ∧
    (eventsTo ((joinHandlerVTwo bobOnline 10 "alice" "a.png" 5).2) 20
      = [.userJoined]) := by
  decide

/-- Claim C2 (amended): the current join handler (src/unnamed/part_001 and
the other two TypeScript variants) satisfies the ordering contract — the
joiner `a` receives exactly `recentMessages`, `onlineUsers`, `joinSuccess` in
that order; every other connection `b` receives exactly `userJoined`, emitted
after all three of `a`'s events; and the `userJoined` notice is addressed to
the room minus `a`, so `a` never hears of its own arrival. The second,
superseded server variant violates every part of this (see the
counterexample). -/
theorem C2_join_ordering (st : ServerState) (a b : Nat) (uname av : String)
    (now : Int) (hab : b ≠ a) :
    ((joinHandler st a uname av now).2.map (fun e => e.event.name)
      = [.recentMessages, .onlineUsers, .joinSuccess, .userJoined]) ∧
    (eventsTo (joinHandler st a uname av now).2 a
      = [.recentMessages, .onlineUsers, .joinSuccess]) ∧
    (eventsTo (joinHandler st a uname av now).2 b = [.userJoined]) ∧
    (∀ e ∈ (joinHandler st a uname av now).2, e.event.name = .userJoined →
      e.audience = .roomExcept a) := by
  refine ⟨rfl, ?_, ?_, ?_⟩
  · simp [joinHandler, eventsTo, Audience.receives, Event.name]
  · simp [joinHandler, eventsTo, Audience.receives, Event.name, hab]
  · intro e he hn
    simp only [joinHandler, List.mem_cons, List.not_mem_nil, or_false] at he
    rcases he with rfl | rfl | rfl | rfl <;> simp_all [Event.name]

/-- Witness for C2: alice (socket 10) joining while bob (socket 20) is online
sees her three events in order; bob sees exactly `userJoined`. -/
theorem C2_witness :
    eventsTo ((joinHandler bobOnline 10 "alice" "a.png" 5).2) 20
      = [EventName.userJoined] :=
  (C2_join_ordering bobOnline 10 20 "alice" "a.png" 5 (by decide)).2.2.1

/-! ## Claim C6 -/

/-- Claim C6 as stated is false for the first server variant: its
normalization and empty-content validation run before the session lookup, so
a connection with no registered Session that sends whitespace-only content
still gets an `error` event — the unauthenticated send is not a complete
silent no-op there. -/
theorem C6_counterexample :
    (registryGet nobodyOnline.connected 10 = none) ∧
    (sendMessageHandlerVOne nobodyOnline 10 { content := some "   " } 5
      = (nobodyOnline,
         [{ audience := .toOne 10,
            event := .errorEvent "Contenido del mensaje no puede estar vacío" }])) := by
  decide

/-- Claim C6 (amended): on the current server (src/unnamed/part_001) an
unauthenticated `sendMessage` is always a complete no-op — state untouched,
nothing emitted, no error; on the first variant the same holds only once the
payload passes normalization and the empty-after-trim check, while a payload
failing those checks draws a validation `error` to the sender even without a
Session. -/
theorem C6_unauthenticated_send (st : ServerState) (c : Nat)
    (payload : SendPayload) (raw : RawSendPayload) (now : Int)
    (h : registryGet st.connected c = none) :
    (sendMessageHandler st c payload now = (st, [])) ∧
    (∀ norm, normalizeSend raw = some norm → jsTrim norm.content ≠ "" →
      sendMessageHandlerVOne st c raw now = (st, [])) ∧
    (normalizeSend raw = none →
      sendMessageHandlerVOne st c raw now
        = (st, [{ audience := .toOne c,
                  event := .errorEvent "Contenido del mensaje es requerido" }])) := by
  refine ⟨?_, ?_, ?_⟩
  · simp [sendMessageHandler, h]
  · intro norm hn ht
    have hc : norm.content ≠ "" := by
      intro hc
      apply ht
      rw [hc]
      rfl
    simp [sendMessageHandlerVOne, hn, hc, ht, h]
  · intro hn
    simp [sendMessageHandlerVOne, hn]

/-- Witness for C6: socket 10 (no session) sending a well-formed `"hola"`
through either handler changes nothing and emits nothing. -/
theorem C6_witness :
    sendMessageHandler nobodyOnline 10
        { content := "hola", type := some .text } 5 = (nobodyOnline, []) ∧
    sendMessageHandlerVOne nobodyOnline 10 { content := some "hola" } 5
      = (nobodyOnline, []) :=
  ⟨(C6_unauthenticated_send nobodyOnline 10
      { content := "hola", type := some .text } { content := some "hola" } 5
      (by decide)).1,
   (C6_unauthenticated_send nobodyOnline 10
      { content := "hola", type := some .text } { content := some "hola" } 5
      (by decide)).2.1
     { content := "hola", type := .text, file := none } (by decide) (by decide)⟩

end ChatApp
